import Mathlib

/-!
Verification of the kernelflinger boot-decision engine and image pipeline.

The definitions below are a shallow embedding of `kernelflinger.c` and
`libkernelflinger/android.c`.  External UEFI collaborators (variable store,
disk, keyboard, clock, reset/wake oracles) are modelled by an environment
record holding the values those collaborators would return during one boot;
persistent state touched by the decision engine (the BCB record on the misc
partition, the one-shot variable, the watchdog counter and time reference)
is threaded explicitly.  C byte strings are `List Char` with NUL-terminated
(C-string) reads expressed via `takeWhile`.
-/

/-- Boot targets, from the `boot_target` enumeration used throughout the
sources (`targets.h` values as listed by the spec's data model). -/
inductive BootTarget where
  | NORMAL_BOOT
  | RECOVERY
  | FASTBOOT
  | ESP_BOOTIMAGE
  | ESP_EFI_BINARY
  | MEMORY
  | CHARGER
  | POWER_OFF
  | TDOS
  | EXIT_SHELL
  | UNKNOWN_TARGET
deriving DecidableEq, Repr

open BootTarget

/-- EFI status codes used by the embedded functions. -/
inductive Status where
  | EFI_SUCCESS
  | EFI_INVALID_PARAMETER
  | EFI_ACCESS_DENIED
  | EFI_OUT_OF_RESOURCES
  | EFI_LOAD_ERROR
  | EFI_NOT_FOUND
  | EFI_NOT_READY
  | EFI_BUFFER_TOO_SMALL
  | EFI_DEVICE_ERROR
  | EFI_UNSUPPORTED
deriving DecidableEq, Repr

open Status

/-- `EFI_ERROR(ret)`: every status other than success is an error. -/
def EFI_ERROR (s : Status) : Bool := s ≠ EFI_SUCCESS

/-- Reset sources reported by the reset oracle (`rsci_get_reset_source`);
only the two watchdog sources are distinguished by the code. -/
inductive ResetSource where
  | RESET_KERNEL_WATCHDOG
  | RESET_SECURITY_WATCHDOG
  | RESET_OTHER
deriving DecidableEq, Repr

open ResetSource

/-- Wake sources reported by `rsci_get_wake_source`. -/
inductive WakeSource where
  | WAKE_BATTERY_INSERTED
  | WAKE_USB_CHARGER_INSERTED
  | WAKE_ACDC_CHARGER_INSERTED
  | WAKE_OTHER
deriving DecidableEq, Repr

open WakeSource

/-- Key events produced by `ui_keycode_to_event`; the code only compares
against `EV_DOWN` (the magic key). -/
inductive UiEvent where
  | down
  | other
deriving DecidableEq, Repr

/-- `#define MAGIC_KEY EV_DOWN` (kernelflinger.c). -/
def MAGIC_KEY : UiEvent := UiEvent.down

/-- The NUL byte terminating C strings. -/
def NUL : Char := Char.ofNat 0

/-- Read a C string out of a fixed-size byte field: the characters before
the first NUL. -/
def cstr (l : List Char) : List Char := l.takeWhile (fun c => c ≠ NUL)

/- ------------------------------------------------------------------ -/
/- Constants from kernelflinger.c                                      -/
/- ------------------------------------------------------------------ -/

/-- `#define EFI_RESET_WAIT_MS 200` — default magic-key wait (ms). -/
def EFI_RESET_WAIT_MS : Nat := 200

/-- `#define WATCHDOG_COUNTER_MAX 2`. -/
def WATCHDOG_COUNTER_MAX : Nat := 2

/-- `#define WATCHDOG_DELAY (10 * 60)` seconds. -/
def WATCHDOG_DELAY : Int := 10 * 60

/-- `#define FASTBOOT_SENTINEL L"\\force_fastboot"`. -/
def FASTBOOT_SENTINEL : List Char := "\\force_fastboot".toList

/-- Modelled from the spec: the 8-byte Android boot-image magic
(`BOOT_MAGIC` from the Android `bootimg.h` header, which is not among the
sources).  The spec calls it the fixed magic signature of a boot image. -/
def BOOT_MAGIC : List Char := "ANDROID!".toList

/-- Modelled from the spec: `SETUP_HDR` from `efilinux.h` (not among the
sources), the Linux boot-protocol setup-header magic checked by the
handover stage. -/
def SETUP_HDR : Nat := 0x53726448

/-- Modelled from the spec: 32-bit EFI handover capability bit of
`xloadflags` (Linux boot protocol, `efilinux.h` not among the sources). -/
def XLF_EFI_HANDOVER_32 : Nat := 4

/-- Modelled from the spec: 64-bit EFI handover capability bit of
`xloadflags`. -/
def XLF_EFI_HANDOVER_64 : Nat := 8

/-- Build-time configuration switches (`#ifdef USERFASTBOOT`, `#ifdef USER`,
`#if __LP64__`). -/
structure Config where
  userfastboot : Bool
  user : Bool
  lp64 : Bool
deriving DecidableEq, Repr

/- ------------------------------------------------------------------ -/
/- Named boot-target resolution                                        -/
/- ------------------------------------------------------------------ -/

/-- Modelled from the spec: `name_to_boot_target` lives in
`libkernelflinger/targets.c`, which is not among the sources.  The spec's
target enumeration and its scenarios (a `boot-recovery` command resolves to
`RECOVERY`; unknown names resolve to `UNKNOWN_TARGET`) determine this table
of named targets. -/
def name_to_boot_target (n : List Char) : BootTarget :=
  if n = "normal".toList then NORMAL_BOOT
  else if n = "recovery".toList then RECOVERY
  else if n = "fastboot".toList then FASTBOOT
  else if n = "charging".toList then CHARGER
  else if n = "tdos".toList then TDOS
  else UNKNOWN_TARGET

/- ------------------------------------------------------------------ -/
/- EFI time arithmetic (kernelflinger.c lines 317-339)                 -/
/- ------------------------------------------------------------------ -/

/-- The fields of `EFI_TIME` consumed by `efi_time_to_ctime` (the source
never reads `Day`). -/
structure EfiTime where
  Year : Nat
  Month : Nat
  Day : Nat
  Hour : Nat
  Minute : Nat
  Second : Nat
deriving DecidableEq, Repr

/-- `is_a_leap_year` (kernelflinger.c line 317). -/
def is_a_leap_year (year : Int) : Bool :=
  ((year % 4 == 0) && (year % 100 != 0)) || (year % 400 == 0)

/-- The year loop of `efi_time_to_ctime`: for each year `i` in
`[1970, y)`, add `is_a_leap_year(i) ? 365 : 366` — translated exactly,
including the source's swapped 365/366 arms. -/
def days_for_years : Nat → Int
  | 0 => 0
  | y + 1 =>
    if y + 1 ≤ 1970 then 0
    else days_for_years y + (if is_a_leap_year (y : Int) then 365 else 366)

/-- `DAY_OF_MONTH`, with February patched to 29 in leap years. -/
def DAY_OF_MONTH (leap : Bool) : List Int :=
  [31, if leap then 29 else 28, 31, 30, 31, 30, 31, 31, 30, 31, 30, 31]

/-- `efi_time_to_ctime` (kernelflinger.c line 322).  The month loop sums
`DAY_OF_MONTH[0 .. Month-2]`; as in the source, `Day` is never added. -/
def efi_time_to_ctime (t : EfiTime) : Int :=
  let days : Int := days_for_years t.Year
    + ((DAY_OF_MONTH (is_a_leap_year (t.Year : Int))).take (t.Month - 1)).sum
  days * 24 * 3600 + (t.Hour : Int) * 3600 + (t.Minute : Int) * 60 + (t.Second : Int)

/- ------------------------------------------------------------------ -/
/- BCB record and read/write (android.c lines 1108-1164)               -/
/- ------------------------------------------------------------------ -/

/-- `struct bootloader_message`: a 64-byte record of two 32-byte ASCII
fields. -/
structure Bcb where
  command : List Char
  status : List Char
deriving DecidableEq, Repr

/-- The pure field transformation `read_bcb` applies to the record read
from disk: `bcb->command[31] = '\0'; bcb->status[31] = '\0';`. -/
def read_bcb_rec (raw : Bcb) : Bcb :=
  { command := raw.command.set 31 NUL, status := raw.status.set 31 NUL }

/-- `read_bcb` (android.c line 1108): partition lookup or disk read failure
yields an error (modelled as `none`); on success the record is returned with
a NUL forced into the last byte of each field. -/
def read_bcb (gptOk diskOk : Bool) (raw : Bcb) : Option Bcb :=
  if gptOk ∧ diskOk then some (read_bcb_rec raw) else none

/- ------------------------------------------------------------------ -/
/- Environment and persistent state of the decision engine             -/
/- ------------------------------------------------------------------ -/

/-- One boot's worth of collaborator answers consumed by
`choose_boot_target` and its checks. -/
structure Env where
  /- watchdog tracker collaborators -/
  crashEventMenu : Bool
  getWdOk : Bool
  resetSource : ResetSource
  getTimeOk : Bool
  now : EfiTime
  resetWdOk : Bool
  setTimeRefOk : Bool
  setCounterOk : Bool
  crashPromptTarget : BootTarget
  /- command line -/
  argv : Option (List (List Char))
  parseAddr : List Char → Nat
  /- ESP file system -/
  fileExists : List Char → Bool
  /- magic key -/
  timeoutVar : Option Nat
  keyAt : Nat → Option Nat
  keycodeToEvent : Nat → UiEvent
  keyHeld : Bool
  /- power/battery oracles -/
  wakeSource : WakeSource
  offModeCharge : Bool
  batteryBelow : Bool
  chargerPlugged : Bool
  /- BCB partition access -/
  readBcbGptOk : Bool
  readBcbDiskOk : Bool
  writeBcbOk : Bool

/-- Watchdog persistent record (`get_watchdog_status` /
`set_watchdog_counter` / `set_watchdog_time_reference`). -/
structure WdState where
  counter : Nat
  timeRef : EfiTime
deriving DecidableEq, Repr

/-- The persistent state mutated by the decision engine: the misc
partition's BCB record, the `LoaderEntryOneShot` variable and the watchdog
record. -/
structure St where
  wd : WdState
  misc : Bcb
  oneShot : Option (List Char)
deriving DecidableEq, Repr

/-- The auxiliary outputs of `choose_boot_target` (`target_address`,
`target_path`, `oneshot`). -/
structure Outs where
  addr : Option Nat
  path : Option (List Char)
  oneshot : Bool
deriving DecidableEq, Repr

/- ------------------------------------------------------------------ -/
/- The nine checks (kernelflinger.c lines 136-518)                     -/
/- ------------------------------------------------------------------ -/

/-- `check_fastboot_sentinel` (line 136). -/
def check_fastboot_sentinel (env : Env) : BootTarget :=
  if env.fileExists FASTBOOT_SENTINEL then FASTBOOT else NORMAL_BOOT

/-- The wait-time selection at the top of `check_magic_key` (lines
153-170): the `MagicKeyTimeout` variable when readable, the default when
absent, and the default again when the stored value is pathological
(greater than 1000 ms). -/
def magic_wait_ms (v : Option Nat) : Nat :=
  match v with
  | none => EFI_RESET_WAIT_MS
  | some w => if w > 1000 then EFI_RESET_WAIT_MS else w

/-- The `ReadKeyStroke` poll loop of `check_magic_key` (lines 176-182):
attempts at `i = 0, 1, …`, stopping at the first successful read or once
`i = wait_ms`. -/
def findKey (keyAt : Nat → Option Nat) (wait : Nat) (i : Nat) : Option Nat :=
  match keyAt i with
  | some k => some k
  | none => if i < wait then findKey keyAt wait (i + 1) else none
termination_by wait - i

/-- `check_magic_key` (line 145). -/
def check_magic_key (cfg : Config) (env : Env) : BootTarget :=
  let wait := magic_wait_ms env.timeoutVar
  match findKey env.keyAt wait 0 with
  | none => NORMAL_BOOT
  | some scan =>
    if env.keycodeToEvent scan ≠ MAGIC_KEY then NORMAL_BOOT
    else if cfg.userfastboot then
      if env.keyHeld then FASTBOOT else RECOVERY
    else if env.keyHeld then FASTBOOT else NORMAL_BOOT

/-- Result record of `check_bcb`: chosen target, the misc partition record
after the pass, and the `target_path` / `oneshot` outputs. -/
structure BcbRes where
  t : BootTarget
  misc : Bcb
  path : Option (List Char)
  oneshot : Bool
deriving DecidableEq, Repr

/-- `check_bcb` (line 212). -/
def check_bcb (env : Env) (misc : Bcb) : BcbRes :=
  match read_bcb env.readBcbGptOk env.readBcbDiskOk misc with
  | none => { t := NORMAL_BOOT, misc := misc, path := none, oneshot := false }
  | some bcb0 =>
    /- we own the status field; clear it -/
    let bcb1 : Bcb := { bcb0 with status := bcb0.status.set 0 NUL }
    let parsed : Option (List Char) × Bcb × Bool :=
      if bcb1.command.take 5 = "boot-".toList then
        (some (cstr (bcb1.command.drop 5)), bcb1, false)
      else if bcb1.command.take 9 = "bootonce-".toList then
        (some (cstr (bcb1.command.drop 9)),
         { bcb1 with command := bcb1.command.set 0 NUL }, true)
      else (none, bcb1, false)
    let written := parsed.2.1
    let oneshot := parsed.2.2
    let misc2 := if env.writeBcbOk then written else misc
    match parsed.1 with
    | none => { t := NORMAL_BOOT, misc := misc2, path := none, oneshot := oneshot }
    | some tgt =>
      if tgt.head? = some '\\' then
        if ¬ env.fileExists tgt then
          { t := NORMAL_BOOT, misc := misc2, path := none, oneshot := oneshot }
        else if tgt.length > 4 then
          let ext := tgt.drop (tgt.length - 4)
          { t := if ext = ".efi".toList ∨ ext = ".EFI".toList
                 then ESP_EFI_BINARY else ESP_BOOTIMAGE,
            misc := misc2, path := some tgt, oneshot := oneshot }
        else
          { t := NORMAL_BOOT, misc := misc2, path := none, oneshot := oneshot }
      else
        let t := name_to_boot_target tgt
        if t ≠ UNKNOWN_TARGET then
          { t := t, misc := misc2, path := none, oneshot := oneshot }
        else
          { t := NORMAL_BOOT, misc := misc2, path := none, oneshot := oneshot }

/-- `check_loader_entry_one_shot` (line 290): the variable is read, then
deleted unconditionally; an unreadable or absent variable defers; unknown
names degrade to `NORMAL_BOOT`; a resolved `CHARGER` is degraded to
`POWER_OFF` when off-mode charging is disabled. -/
def check_loader_entry_one_shot (env : Env) (v : Option (List Char)) :
    BootTarget × Option (List Char) :=
  match v with
  | none => (NORMAL_BOOT, none)
  | some tgt =>
    let r := name_to_boot_target tgt
    let r := if r = UNKNOWN_TARGET then NORMAL_BOOT
             else if r = CHARGER ∧ ¬ env.offModeCharge then POWER_OFF
             else r
    (r, none)

/-- `check_watchdog` (line 345). -/
def check_watchdog (env : Env) (wd : WdState) : BootTarget × WdState :=
  if ¬ env.crashEventMenu then (NORMAL_BOOT, wd)
  else if ¬ env.getWdOk then (NORMAL_BOOT, wd)
  else if env.resetSource ≠ RESET_KERNEL_WATCHDOG
          ∧ env.resetSource ≠ RESET_SECURITY_WATCHDOG then
    if wd.counter ≠ 0 then
      if env.resetWdOk then (NORMAL_BOOT, { wd with counter := 0 })
      else (NORMAL_BOOT, wd)
    else (NORMAL_BOOT, wd)
  else if ¬ env.getTimeOk then (NORMAL_BOOT, wd)
  else
    let time_diff := efi_time_to_ctime env.now - efi_time_to_ctime wd.timeRef
    let counter :=
      if wd.counter > 0 ∧ (time_diff < 0 ∨ time_diff > WATCHDOG_DELAY)
      then 0 else wd.counter
    if counter = 0 ∧ ¬ env.setTimeRefOk then (NORMAL_BOOT, wd)
    else
      let wd1 := if counter = 0 then { wd with timeRef := env.now } else wd
      let c2 := counter + 1
      if c2 ≤ WATCHDOG_COUNTER_MAX then
        if env.setCounterOk then (NORMAL_BOOT, { wd1 with counter := c2 })
        else (NORMAL_BOOT, wd1)
      else
        (env.crashPromptTarget,
         if env.resetWdOk then { wd1 with counter := 0 } else wd1)

/-- The argument loop of `check_command_line` (lines 429-473). -/
def cclLoop (cfg : Config) (env : Env) (argv : List (List Char))
    (pos : Nat) (bt : BootTarget) (addr : Option Nat) : BootTarget × Option Nat :=
  if h : pos < argv.length then
    let a := argv.get ⟨pos, h⟩
    if ¬ cfg.userfastboot ∧ a = "-f".toList then
      cclLoop cfg env argv (pos + 1) FASTBOOT addr
    else if ¬ cfg.user ∧ a = "-U".toList then
      (EXIT_SHELL, addr)
    else if a = "-a".toList then
      if h2 : argv.length ≤ pos + 1 then (bt, addr)
      else if cfg.userfastboot then
        cclLoop cfg env argv (pos + 2) MEMORY
          (some (env.parseAddr (argv.get ⟨pos + 1, by omega⟩)))
      else
        cclLoop cfg env argv (pos + 2) FASTBOOT addr
    else if pos = 0 then
      cclLoop cfg env argv (pos + 1) bt addr
    else (bt, addr)
  else (bt, addr)
termination_by argv.length - pos

/-- `check_command_line` (line 417): a failed `get_argv` defers with no
address. -/
def check_command_line (cfg : Config) (env : Env) : BootTarget × Option Nat :=
  match env.argv with
  | none => (NORMAL_BOOT, none)
  | some argv => cclLoop cfg env argv 0 NORMAL_BOOT none

/-- `check_battery_inserted` (line 480). -/
def check_battery_inserted (env : Env) : BootTarget :=
  if env.wakeSource = WAKE_BATTERY_INSERTED then POWER_OFF else NORMAL_BOOT

/-- `check_charge_mode` (line 491). -/
def check_charge_mode (env : Env) : BootTarget :=
  if ¬ env.offModeCharge then NORMAL_BOOT
  else if env.wakeSource = WAKE_USB_CHARGER_INSERTED
          ∨ env.wakeSource = WAKE_ACDC_CHARGER_INSERTED then CHARGER
  else NORMAL_BOOT

/-- `check_battery` (line 508): low battery becomes `CHARGER` when a
charger is plugged, `POWER_OFF` otherwise. -/
def check_battery (env : Env) : BootTarget :=
  if env.batteryBelow then
    if env.chargerPlugged then CHARGER else POWER_OFF
  else NORMAL_BOOT

/- ------------------------------------------------------------------ -/
/- choose_boot_target (kernelflinger.c line 544)                       -/
/- ------------------------------------------------------------------ -/

/-- `choose_boot_target` (line 544), translated clause by clause: nine
checks run in order, each `ret != NORMAL_BOOT` short-circuiting to `out`,
the auxiliary outputs starting as `{NULL, NULL, TRUE}`. -/
def choose_boot_target (cfg : Config) (env : Env) (st : St) :
    BootTarget × St × Outs :=
  let outs0 : Outs := { addr := none, path := none, oneshot := true }
  let r1 := check_watchdog env st.wd
  let st1 : St := { st with wd := r1.2 }
  if r1.1 ≠ NORMAL_BOOT then (r1.1, st1, outs0) else
  let r2 := check_command_line cfg env
  let outs1 : Outs := { outs0 with addr := r2.2 }
  if r2.1 ≠ NORMAL_BOOT then (r2.1, st1, outs1) else
  let r3 := check_fastboot_sentinel env
  if r3 ≠ NORMAL_BOOT then (r3, st1, outs1) else
  let r4 := check_magic_key cfg env
  if r4 ≠ NORMAL_BOOT then (r4, st1, outs1) else
  let r5 := check_battery_inserted env
  if r5 ≠ NORMAL_BOOT then (r5, st1, outs1) else
  let r6 := check_bcb env st1.misc
  let st2 : St := { st1 with misc := r6.misc }
  let outs2 : Outs := { outs1 with path := r6.path, oneshot := r6.oneshot }
  if r6.t ≠ NORMAL_BOOT then (r6.t, st2, outs2) else
  let r7 := check_loader_entry_one_shot env st2.oneShot
  let st3 : St := { st2 with oneShot := r7.2 }
  if r7.1 ≠ NORMAL_BOOT then (r7.1, st3, outs2) else
  let r8 := check_battery env
  /- a POWER_OFF result additionally shows the low-battery notice (UI only) -/
  if r8 ≠ NORMAL_BOOT then (r8, st3, outs2) else
  (check_charge_mode env, st3, outs2)

/-- State threaded through the decision chain: persistent state plus the
auxiliary outputs. -/
abbrev ChSt := St × Outs

/-- `check_watchdog` as a chain step. -/
def step_watchdog (env : Env) (p : ChSt) : BootTarget × ChSt :=
  let r := check_watchdog env p.1.wd
  (r.1, ({ p.1 with wd := r.2 }, p.2))

/-- `check_command_line` as a chain step. -/
def step_command_line (cfg : Config) (env : Env) (p : ChSt) : BootTarget × ChSt :=
  let r := check_command_line cfg env
  (r.1, (p.1, { p.2 with addr := r.2 }))

/-- `check_fastboot_sentinel` as a chain step. -/
def step_fastboot_sentinel (env : Env) (p : ChSt) : BootTarget × ChSt :=
  (check_fastboot_sentinel env, p)

/-- `check_magic_key` as a chain step. -/
def step_magic_key (cfg : Config) (env : Env) (p : ChSt) : BootTarget × ChSt :=
  (check_magic_key cfg env, p)

/-- `check_battery_inserted` as a chain step. -/
def step_battery_inserted (env : Env) (p : ChSt) : BootTarget × ChSt :=
  (check_battery_inserted env, p)

/-- `check_bcb` as a chain step. -/
def step_bcb (env : Env) (p : ChSt) : BootTarget × ChSt :=
  let r := check_bcb env p.1.misc
  (r.t, ({ p.1 with misc := r.misc }, { p.2 with path := r.path, oneshot := r.oneshot }))

/-- `check_loader_entry_one_shot` as a chain step. -/
def step_one_shot (env : Env) (p : ChSt) : BootTarget × ChSt :=
  let r := check_loader_entry_one_shot env p.1.oneShot
  (r.1, ({ p.1 with oneShot := r.2 }, p.2))

/-- `check_battery` as a chain step. -/
def step_battery (env : Env) (p : ChSt) : BootTarget × ChSt :=
  (check_battery env, p)

/-- `check_charge_mode` as a chain step. -/
def step_charge_mode (env : Env) (p : ChSt) : BootTarget × ChSt :=
  (check_charge_mode env, p)

/-- The spec's decision chain order: watchdog, command line, fastboot
sentinel, magic key, battery-inserted, BCB, persisted one-shot variable,
low battery, charge mode. -/
def decision_checks (cfg : Config) (env : Env) : List (ChSt → BootTarget × ChSt) :=
  [step_watchdog env, step_command_line cfg env, step_fastboot_sentinel env,
   step_magic_key cfg env, step_battery_inserted env, step_bcb env,
   step_one_shot env, step_battery env, step_charge_mode env]

/-- The spec's fold-until-veto combinator: run the checks top to bottom,
return the first result other than `NORMAL_BOOT` together with the state as
mutated by exactly the checks evaluated so far; if every check defers,
return `NORMAL_BOOT`.  Later checks are not evaluated: their state effects
do not occur. -/
def chainRun : List (ChSt → BootTarget × ChSt) → ChSt → BootTarget × ChSt
  | [], p => (NORMAL_BOOT, p)
  | c :: cs, p =>
    let r := c p
    if r.1 = NORMAL_BOOT then chainRun cs r.2 else r

/- ------------------------------------------------------------------ -/
/- validate_bootimage (kernelflinger.c line 617)                       -/
/- ------------------------------------------------------------------ -/

/-- `validate_bootimage` (line 617).  `verified` is the outcome of the
external `verify_android_boot_image` collaborator: `none` for a failed
verification, `some label` for success with the extracted target label. -/
def validate_bootimage (cfg : Config) (boot_target : BootTarget)
    (verified : Option (List Char)) : Status :=
  match verified with
  | none => EFI_ACCESS_DENIED
  | some target =>
    let expected : Option (List Char) :=
      match boot_target with
      | NORMAL_BOOT => some ("/boot".toList)
      | CHARGER => some ("/boot".toList)
      | RECOVERY => some ("/recovery".toList)
      | ESP_BOOTIMAGE => some ("/boot".toList)
      | _ => none
    let expected2 : Option (List Char) :=
      match boot_target with
      | NORMAL_BOOT => some ("/recovery".toList)
      | ESP_BOOTIMAGE => if cfg.userfastboot then some ("/fastboot".toList) else none
      | _ => none
    if (expected = none ∨ expected ≠ some target)
       ∧ (expected2 = none ∨ expected2 ≠ some target) then
      EFI_ACCESS_DENIED
    else
      EFI_SUCCESS

/- ------------------------------------------------------------------ -/
/- Boot image container and loaders (android.c lines 201-1005)         -/
/- ------------------------------------------------------------------ -/

/-- The fields of `struct boot_img_hdr` the embedded functions consume. -/
structure BootImgHdr where
  magic : List Char
  kernel_size : Nat
  ramdisk_size : Nat
  second_size : Nat
  page_size : Nat
deriving DecidableEq, Repr

/-- `pagealign` (android.c line 201), on 32-bit quantities. -/
def pagealign (hdr : BootImgHdr) (blob_size : Nat) : Nat :=
  let page_mask := hdr.page_size - 1
  ((blob_size + page_mask) % 2 ^ 32) &&& ((2 ^ 32 - 1) - page_mask)

/-- `bootimage_size` (android.c line 208). -/
def bootimage_size (hdr : BootImgHdr) : Nat :=
  pagealign hdr hdr.kernel_size + pagealign hdr hdr.ramdisk_size +
    pagealign hdr hdr.second_size + hdr.page_size

/-- Collaborator outcomes consumed by `android_image_load_partition`. -/
structure LoadPartEnv where
  gptStatus : Status
  readHdrStatus : Status
  hdr : BootImgHdr
  allocOk : Bool
  readFullStatus : Status

/-- `android_image_load_partition` (android.c line 822): the output image
pointer starts NULL and is produced only on full success. -/
def android_image_load_partition (env : LoadPartEnv) : Status × Option BootImgHdr :=
  if EFI_ERROR env.gptStatus then (env.gptStatus, none)
  else if EFI_ERROR env.readHdrStatus then (env.readHdrStatus, none)
  else if env.hdr.magic.take 8 ≠ BOOT_MAGIC then (EFI_INVALID_PARAMETER, none)
  else if ¬ env.allocOk then (EFI_OUT_OF_RESOURCES, none)
  else if EFI_ERROR env.readFullStatus then (env.readFullStatus, none)
  else (EFI_SUCCESS, some env.hdr)

/-- Collaborator outcomes consumed by `android_image_load_file`.  The
`Delete`/`Close` calls in the source only log their status (`ret2`) and
never change the returned status or pointer, so they need no fields. -/
structure LoadFileEnv where
  pathOk : Bool
  handleStatus : Status
  openVolumeStatus : Status
  openStatus : Status
  allocInfoOk : Bool
  getInfo1 : Status
  allocInfo2Ok : Bool
  getInfo2 : Status
  allocImageOk : Bool
  read1 : Status
  read2 : Status
  hdr : BootImgHdr

/-- `android_image_load_file` (android.c line 875).  `GetInfo` and `Read`
retry once on `EFI_BUFFER_TOO_SMALL` (the second image allocation's failure
is not caught by the source, which tests `fileinfo` instead, so the model
proceeds to the second read unconditionally); on any error the pointer
output stays NULL. -/
def android_image_load_file (env : LoadFileEnv) (delete : Bool) :
    Status × Option BootImgHdr :=
  if ¬ env.pathOk then (EFI_INVALID_PARAMETER, none)
  else if EFI_ERROR env.handleStatus then (env.handleStatus, none)
  else if EFI_ERROR env.openVolumeStatus then (env.openVolumeStatus, none)
  else if EFI_ERROR env.openStatus then (env.openStatus, none)
  else if ¬ env.allocInfoOk then (EFI_OUT_OF_RESOURCES, none)
  else
    let giRes : Option Status :=
      if env.getInfo1 = EFI_BUFFER_TOO_SMALL then
        if env.allocInfo2Ok then some env.getInfo2 else none
      else some env.getInfo1
    match giRes with
    | none => (EFI_OUT_OF_RESOURCES, none)
    | some gi =>
      if EFI_ERROR gi then (gi, none)
      else if ¬ env.allocImageOk then (EFI_OUT_OF_RESOURCES, none)
      else
        let rd := if env.read1 = EFI_BUFFER_TOO_SMALL then env.read2 else env.read1
        if EFI_ERROR rd then (rd, none)
        else if env.hdr.magic.take 8 ≠ BOOT_MAGIC then (EFI_INVALID_PARAMETER, none)
        else (EFI_SUCCESS, some env.hdr)

/- ------------------------------------------------------------------ -/
/- android_image_start_buffer (android.c line 1008)                    -/
/- ------------------------------------------------------------------ -/

/-- The `setup_header` fields validated by the handover stage. -/
structure SetupHdr where
  signature : Nat
  header : Nat
  version : Nat
  xloadflags : Nat
  relocatable_kernel : Nat
deriving DecidableEq, Repr

/-- A boot image buffer as seen by `android_image_start_buffer`: the
Android container magic and the embedded kernel's setup header. -/
structure BootBuf where
  magic : List Char
  hdr : SetupHdr
deriving DecidableEq, Repr

/-- Collaborator outcomes of the three handover stages. -/
structure StartEnv where
  cmdlineStatus : Status
  ramdiskStatus : Status
  handoverJumps : Bool
  handoverStatus : Status

/-- Outcome of `android_image_start_buffer`: either an error returned to
the caller, or the irreversible jump into the kernel. -/
inductive StartRes where
  | jumped
  | err (s : Status)
deriving DecidableEq, Repr

/-- The handover capability bit demanded by the build
(`XLF_EFI_HANDOVER_64` on `__LP64__`, `XLF_EFI_HANDOVER_32` otherwise). -/
def efi_handover_flag (cfg : Config) : Nat :=
  if cfg.lp64 then XLF_EFI_HANDOVER_64 else XLF_EFI_HANDOVER_32

/-- `android_image_start_buffer` (android.c line 1008): NULL buffer, bad
container magic, bad boot-sector signature, bad setup-header magic, a
protocol version below 2.12, a missing handover capability bit, or a
non-relocatable kernel are each rejected with `EFI_INVALID_PARAMETER`
before the jump; afterwards the three handover stages run. -/
def android_image_start_buffer (cfg : Config) (env : StartEnv)
    (bootimage : Option BootBuf) : StartRes :=
  match bootimage with
  | none => StartRes.err EFI_INVALID_PARAMETER
  | some b =>
    if b.magic.take 8 ≠ BOOT_MAGIC then StartRes.err EFI_INVALID_PARAMETER
    else if b.hdr.signature ≠ 0xAA55 then StartRes.err EFI_INVALID_PARAMETER
    else if b.hdr.header ≠ SETUP_HDR then StartRes.err EFI_INVALID_PARAMETER
    else if b.hdr.version < 0x20c then StartRes.err EFI_INVALID_PARAMETER
    else if b.hdr.xloadflags &&& efi_handover_flag cfg = 0 then
      StartRes.err EFI_INVALID_PARAMETER
    else if b.hdr.relocatable_kernel = 0 then StartRes.err EFI_INVALID_PARAMETER
    else if EFI_ERROR env.cmdlineStatus then StartRes.err env.cmdlineStatus
    else if EFI_ERROR env.ramdiskStatus then StartRes.err env.ramdiskStatus
    else if env.handoverJumps then StartRes.jumped
    else StartRes.err env.handoverStatus

/- ------------------------------------------------------------------ -/
/- Concrete fixtures for witnesses and counterexamples                 -/
/- ------------------------------------------------------------------ -/

/-- A quiescent boot environment: every check defers, every collaborator
succeeds.  Specialised by record update in witnesses. -/
def env0 : Env where
  crashEventMenu := false
  getWdOk := true
  resetSource := RESET_OTHER
  getTimeOk := true
  now := ⟨2024, 1, 1, 0, 0, 0⟩
  resetWdOk := true
  setTimeRefOk := true
  setCounterOk := true
  crashPromptTarget := RECOVERY
  argv := none
  parseAddr := fun _ => 0
  fileExists := fun _ => false
  timeoutVar := none
  keyAt := fun _ => none
  keycodeToEvent := fun _ => UiEvent.other
  keyHeld := false
  wakeSource := WAKE_OTHER
  offModeCharge := true
  batteryBelow := false
  chargerPlugged := false
  readBcbGptOk := true
  readBcbDiskOk := true
  writeBcbOk := true

/-- A quiescent persistent state: empty BCB, no one-shot variable, idle
watchdog record. -/
def st0 : St where
  wd := ⟨0, ⟨2024, 1, 1, 0, 0, 0⟩⟩
  misc := ⟨List.replicate 32 NUL, List.replicate 32 NUL⟩
  oneShot := none

/-- A misc record holding the one-shot command `bootonce-recovery`. -/
def bcbBootonce : Bcb :=
  ⟨"bootonce-recovery".toList ++ List.replicate 15 NUL, List.replicate 32 NUL⟩

/-- A misc record holding the persistent command `boot-recovery`. -/
def bcbBootRecovery : Bcb :=
  ⟨"boot-recovery".toList ++ List.replicate 19 NUL, List.replicate 32 NUL⟩

/- ------------------------------------------------------------------ -/
/- Helper lemmas                                                       -/
/- ------------------------------------------------------------------ -/

/-- Setting index `i` of a list makes position `i` read back the new
value, provided `i` is in bounds. -/
theorem get_opt_set_self (l : List Char) (i : Nat) (a : Char) (h : i < l.length) :
    (l.set i a).get? i = some a := by
  induction l generalizing i with
  | nil => simp at h
  | cons x xs ih =>
    cases i with
    | zero => rfl
    | succ j =>
      simp only [List.set, List.get?]
      exact ih j (by simpa using h)

/-- Unfolding a C-string read one character at a time. -/
theorem cstr_cons (x : Char) (xs : List Char) :
    cstr (x :: xs) = if x ≠ NUL then x :: cstr xs else [] := by
  unfold cstr
  rw [List.takeWhile_cons]
  by_cases hx : x = NUL <;> simp [hx]

/-- A C-string read stops no later than any NUL in the buffer. -/
theorem cstr_length_le_of_nul (l : List Char) (i : Nat) (h : l.get? i = some NUL) :
    (cstr l).length ≤ i := by
  induction l generalizing i with
  | nil => simp [cstr] at h ⊢
  | cons x xs ih =>
    by_cases hx : x = NUL
    · simp [cstr_cons, hx]
    · cases i with
      | zero =>
        simp only [List.get?] at h
        injection h with h
        exact absurd h hx
      | succ j =>
        rw [cstr_cons, if_pos hx]
        simp only [List.length_cons]
        have := ih j (by simpa using h)
        omega

/-- A C-string read of a prefix free of NUL bytes passes over it. -/
theorem cstr_append_of_no_nul (l₁ l₂ : List Char) (h : ∀ c ∈ l₁, c ≠ NUL) :
    cstr (l₁ ++ l₂) = l₁ ++ cstr l₂ := by
  induction l₁ with
  | nil => rfl
  | cons x xs ih =>
    have hx : x ≠ NUL := h x (by simp)
    rw [List.cons_append, cstr_cons, if_pos hx,
      ih (fun c hc => h c (by simp [hc])), List.cons_append]

/-- Clearing the first byte of a nonempty field empties its C string. -/
theorem cstr_set_zero (l : List Char) (h : l ≠ []) : cstr (l.set 0 NUL) = [] := by
  cases l with
  | nil => simp at h
  | cons x xs => simp [List.set, cstr_cons]

/-- Any name the spec-modelled resolution table recognizes does not begin
with a backslash. -/
theorem name_to_boot_target_no_backslash (n : List Char)
    (h : name_to_boot_target n ≠ UNKNOWN_TARGET) : n.head? ≠ some '\\' := by
  intro hh
  apply h
  unfold name_to_boot_target
  have h1 : n ≠ "normal".toList := fun he => by
    rw [he] at hh; exact absurd hh (by decide)
  have h2 : n ≠ "recovery".toList := fun he => by
    rw [he] at hh; exact absurd hh (by decide)
  have h3 : n ≠ "fastboot".toList := fun he => by
    rw [he] at hh; exact absurd hh (by decide)
  have h4 : n ≠ "charging".toList := fun he => by
    rw [he] at hh; exact absurd hh (by decide)
  have h5 : n ≠ "tdos".toList := fun he => by
    rw [he] at hh; exact absurd hh (by decide)
  rw [if_neg h1, if_neg h2, if_neg h3, if_neg h4, if_neg h5]

/- ------------------------------------------------------------------ -/
/- Claim theorems                                                      -/
/- ------------------------------------------------------------------ -/

/-- C4: with a successfully verified image whose extracted label is
`/recovery`, `validate_bootimage` passes for a requested target of
`RECOVERY`, passes for `NORMAL_BOOT` (staged-update tolerance), and fails
with `EFI_ACCESS_DENIED` for `CHARGER`. -/
theorem validate_bootimage_recovery_label (cfg : Config) :
    validate_bootimage cfg RECOVERY (some ("/recovery".toList)) = EFI_SUCCESS
    ∧ validate_bootimage cfg NORMAL_BOOT (some ("/recovery".toList)) = EFI_SUCCESS
    ∧ validate_bootimage cfg CHARGER (some ("/recovery".toList)) = EFI_ACCESS_DENIED := by
  refine ⟨?_, ?_, ?_⟩ <;> rfl

/-- C5: a bad boot-sector signature, a setup-header protocol version below
2.12, a missing build-appropriate EFI handover capability bit, or a
non-relocatable kernel each make `android_image_start_buffer` return
`EFI_INVALID_PARAMETER` without performing the kernel jump. -/
theorem android_image_start_buffer_rejects (cfg : Config) (env : StartEnv) (b : BootBuf)
    (h : b.hdr.signature ≠ 0xAA55 ∨ b.hdr.version < 0x20c
       ∨ b.hdr.xloadflags &&& efi_handover_flag cfg = 0
       ∨ b.hdr.relocatable_kernel = 0) :
    android_image_start_buffer cfg env (some b) = StartRes.err EFI_INVALID_PARAMETER
    ∧ android_image_start_buffer cfg env (some b) ≠ StartRes.jumped := by
  have h0 : android_image_start_buffer cfg env (some b)
      = StartRes.err EFI_INVALID_PARAMETER := by
    simp only [android_image_start_buffer]
    split_ifs with h1 h2 h3 h4 h5 h6 h7 h8 h9 <;>
      first
        | rfl
        | (exfalso; rcases h with h | h | h | h <;> simp_all)
  refine ⟨h0, ?_⟩
  rw [h0]
  intro hc
  exact StartRes.noConfusion hc

/-- Witness for C5 at a concrete buffer whose boot-sector signature is
wrong. -/
theorem android_image_start_buffer_rejects_witness :
    android_image_start_buffer ⟨false, true, true⟩
      ⟨EFI_SUCCESS, EFI_SUCCESS, true, EFI_SUCCESS⟩
      (some ⟨"ANDROID!".toList, ⟨0, SETUP_HDR, 0x20c, 8, 1⟩⟩)
      = StartRes.err EFI_INVALID_PARAMETER :=
  (android_image_start_buffer_rejects ⟨false, true, true⟩
    ⟨EFI_SUCCESS, EFI_SUCCESS, true, EFI_SUCCESS⟩
    ⟨"ANDROID!".toList, ⟨0, SETUP_HDR, 0x20c, 8, 1⟩⟩
    (Or.inl (by decide))).1

/-- C9: the magic-key check reads the platform timeout from the persisted
variable; an absent variable yields the fixed default, an implausible value
(above 1000 ms) is replaced by the default so the polling window never
exceeds the sane maximum, and a plausible value is used as is.
`check_magic_key` polls the keyboard for exactly this window. -/
theorem check_magic_key_timeout (v : Nat) :
    magic_wait_ms none = EFI_RESET_WAIT_MS
    ∧ (1000 < v → magic_wait_ms (some v) = EFI_RESET_WAIT_MS)
    ∧ (v ≤ 1000 → magic_wait_ms (some v) = v)
    ∧ magic_wait_ms (some v) ≤ 1000 := by
  refine ⟨rfl, ?_, ?_, ?_⟩
  · intro h
    simp [magic_wait_ms, h]
  · intro h
    have : ¬ (1000 < v) := by omega
    simp [magic_wait_ms, this]
  · simp only [magic_wait_ms, EFI_RESET_WAIT_MS]
    split <;> omega

/-- Witness for C9 at the implausible stored value 5000 and at an absent
variable. -/
theorem check_magic_key_timeout_witness :
    magic_wait_ms (some 5000) = EFI_RESET_WAIT_MS
    ∧ magic_wait_ms (some 800) = 800 :=
  ⟨(check_magic_key_timeout 5000).2.1 (by decide),
   (check_magic_key_timeout 800).2.2.1 (by decide)⟩

/-- C7: a boot image whose 8-byte magic does not match the Android boot
magic makes both `android_image_load_partition` and
`android_image_load_file` return `EFI_INVALID_PARAMETER` with the output
image pointer still NULL, whatever the delete flag. -/
theorem android_image_load_bad_magic (envP : LoadPartEnv) (envF : LoadFileEnv) (del : Bool)
    (hP1 : envP.gptStatus = EFI_SUCCESS) (hP2 : envP.readHdrStatus = EFI_SUCCESS)
    (hPm : envP.hdr.magic.take 8 ≠ BOOT_MAGIC)
    (hF1 : envF.pathOk = true) (hF2 : envF.handleStatus = EFI_SUCCESS)
    (hF3 : envF.openVolumeStatus = EFI_SUCCESS) (hF4 : envF.openStatus = EFI_SUCCESS)
    (hF5 : envF.allocInfoOk = true) (hF6 : envF.getInfo1 = EFI_SUCCESS)
    (hF7 : envF.allocImageOk = true) (hF8 : envF.read1 = EFI_SUCCESS)
    (hFm : envF.hdr.magic.take 8 ≠ BOOT_MAGIC) :
    android_image_load_partition envP = (EFI_INVALID_PARAMETER, none)
    ∧ android_image_load_file envF del = (EFI_INVALID_PARAMETER, none) := by
  constructor
  · simp [android_image_load_partition, hP1, hP2, hPm, EFI_ERROR]
  · simp [android_image_load_file, hF1, hF2, hF3, hF4, hF5, hF6, hF7, hF8, hFm, EFI_ERROR]

/-- Witness for C7: a header whose magic has its last byte flipped. -/
theorem android_image_load_bad_magic_witness :
    android_image_load_partition
      ⟨EFI_SUCCESS, EFI_SUCCESS, ⟨"ANDROIDx".toList, 0, 0, 0, 0⟩, true, EFI_SUCCESS⟩
      = (EFI_INVALID_PARAMETER, none)
    ∧ android_image_load_file
      ⟨true, EFI_SUCCESS, EFI_SUCCESS, EFI_SUCCESS, true, EFI_SUCCESS, true,
       EFI_SUCCESS, true, EFI_SUCCESS, EFI_SUCCESS, ⟨"ANDROIDx".toList, 0, 0, 0, 0⟩⟩
      false
      = (EFI_INVALID_PARAMETER, none) :=
  android_image_load_bad_magic
    ⟨EFI_SUCCESS, EFI_SUCCESS, ⟨"ANDROIDx".toList, 0, 0, 0, 0⟩, true, EFI_SUCCESS⟩
    ⟨true, EFI_SUCCESS, EFI_SUCCESS, EFI_SUCCESS, true, EFI_SUCCESS, true,
     EFI_SUCCESS, true, EFI_SUCCESS, EFI_SUCCESS, ⟨"ANDROIDx".toList, 0, 0, 0, 0⟩⟩
    false rfl rfl (by decide) rfl rfl rfl rfl rfl rfl rfl rfl (by decide)

/-- C10: a successful `read_bcb` forces a NUL terminator into the last
byte (index 31) of both 32-byte fields, so each field reads back as a C
string of at most 31 characters even if the on-disk data contains no
terminator. -/
theorem read_bcb_forces_terminator (gptOk diskOk : Bool) (raw r : Bcb)
    (hc : raw.command.length = 32) (hs : raw.status.length = 32)
    (h : read_bcb gptOk diskOk raw = some r) :
    r.command.get? 31 = some NUL ∧ r.status.get? 31 = some NUL
    ∧ (cstr r.command).length ≤ 31 ∧ (cstr r.status).length ≤ 31 := by
  unfold read_bcb at h
  split at h
  · injection h with h
    subst h
    have h1 : (raw.command.set 31 NUL).get? 31 = some NUL :=
      get_opt_set_self raw.command 31 NUL (by omega)
    have h2 : (raw.status.set 31 NUL).get? 31 = some NUL :=
      get_opt_set_self raw.status 31 NUL (by omega)
    exact ⟨h1, h2, cstr_length_le_of_nul _ 31 h1, cstr_length_le_of_nul _ 31 h2⟩
  · cases h

/-- Witness for C10 at a record stored on disk with no terminator at
all. -/
theorem read_bcb_forces_terminator_witness :
    (read_bcb_rec ⟨List.replicate 32 'x', List.replicate 32 'y'⟩).command.get? 31 = some NUL
    ∧ (read_bcb_rec ⟨List.replicate 32 'x', List.replicate 32 'y'⟩).status.get? 31 = some NUL
    ∧ (cstr (read_bcb_rec ⟨List.replicate 32 'x', List.replicate 32 'y'⟩).command).length ≤ 31
    ∧ (cstr (read_bcb_rec ⟨List.replicate 32 'x', List.replicate 32 'y'⟩).status).length ≤ 31 :=
  read_bcb_forces_terminator true true ⟨List.replicate 32 'x', List.replicate 32 'y'⟩
    (read_bcb_rec ⟨List.replicate 32 'x', List.replicate 32 'y'⟩)
    (by decide) (by decide) rfl

/-- C2: a BCB whose command is `bootonce-<X>` with `X` a valid target name
yields, after one pass of `check_bcb`, a record written back whose command
reads as the empty string, the resolution of `X` as the returned target,
and a true oneshot flag. -/
theorem check_bcb_bootonce (env : Env) (misc : Bcb) (rest : List Char)
    (hgpt : env.readBcbGptOk = true) (hdisk : env.readBcbDiskOk = true)
    (hw : env.writeBcbOk = true)
    (hcmd : (read_bcb_rec misc).command = "bootonce-".toList ++ rest)
    (hX : name_to_boot_target (cstr rest) ≠ UNKNOWN_TARGET) :
    (check_bcb env misc).t = name_to_boot_target (cstr rest)
    ∧ (check_bcb env misc).oneshot = true
    ∧ cstr ((check_bcb env misc).misc.command) = [] := by
  have hread : read_bcb env.readBcbGptOk env.readBcbDiskOk misc
      = some (read_bcb_rec misc) := by
    simp [read_bcb, hgpt, hdisk]
  have h5 : ("bootonce-".toList ++ rest).take 5 ≠ "boot-".toList := by
    rw [List.take_append_eq_append_take]; simp
  have h9 : ("bootonce-".toList ++ rest).take 9 = "bootonce-".toList := by
    rw [List.take_append_eq_append_take]; simp
  have hdrop : ("bootonce-".toList ++ rest).drop 9 = rest := by
    rw [List.drop_append_eq_append_drop]; simp
  have hhead : (cstr rest).head? ≠ some '\\' := name_to_boot_target_no_backslash _ hX
  simp only [check_bcb, hread, hcmd]
  simp only [h5, h9, hdrop, hw]
  simp [hhead, hX, cstr_cons]

/-- Witness for C2 at the concrete record `bootonce-recovery`: the command
is consumed, the target resolves to `RECOVERY`, the oneshot flag is set. -/
theorem check_bcb_bootonce_witness :
    (check_bcb env0 bcbBootonce).t = RECOVERY
    ∧ (check_bcb env0 bcbBootonce).oneshot = true
    ∧ cstr ((check_bcb env0 bcbBootonce).misc.command) = [] := by
  have h := check_bcb_bootonce env0 bcbBootonce
    ("recovery".toList ++ List.replicate 15 NUL) rfl rfl rfl (by decide) (by decide)
  refine ⟨?_, h.2.1, h.2.2⟩
  rw [h.1]
  decide

/-- C3: a BCB whose command is `boot-<X>` is written back with the command
field unchanged and the oneshot flag false; in particular a
`boot-recovery` command yields target `RECOVERY`. -/
theorem check_bcb_boot_persistent (env : Env) (misc : Bcb) (rest : List Char)
    (hgpt : env.readBcbGptOk = true) (hdisk : env.readBcbDiskOk = true)
    (hw : env.writeBcbOk = true)
    (hcmd : (read_bcb_rec misc).command = "boot-".toList ++ rest) :
    (check_bcb env misc).misc.command = (read_bcb_rec misc).command
    ∧ (check_bcb env misc).oneshot = false
    ∧ (cstr ((read_bcb_rec misc).command) = "boot-recovery".toList →
        (check_bcb env misc).t = RECOVERY) := by
  have hread : read_bcb env.readBcbGptOk env.readBcbDiskOk misc
      = some (read_bcb_rec misc) := by
    simp [read_bcb, hgpt, hdisk]
  have h5 : ("boot-".toList ++ rest).take 5 = "boot-".toList := by
    rw [List.take_append_eq_append_take]; simp
  have hdrop : ("boot-".toList ++ rest).drop 5 = rest := by
    rw [List.drop_append_eq_append_drop]; simp
  refine ⟨?_, ?_, ?_⟩
  · simp only [check_bcb, hread, hcmd, h5, hdrop, hw, if_pos trivial]
    split_ifs <;> rfl
  · simp only [check_bcb, hread, hcmd, h5, hdrop, hw, if_pos trivial]
    split_ifs <;> rfl
  · intro hcr
    have hb : ∀ c ∈ "boot-".toList, c ≠ NUL := by decide
    rw [hcmd, cstr_append_of_no_nul _ _ hb] at hcr
    have hsplit : "boot-recovery".toList = "boot-".toList ++ "recovery".toList := by
      decide
    rw [hsplit] at hcr
    have hrest : cstr rest = "recovery".toList := List.append_cancel_left hcr
    simp only [check_bcb, hread, hcmd, h5, hdrop, hw, hrest, if_pos trivial]
    simp [name_to_boot_target]

/-- Witness for C3 at the concrete record `boot-recovery`. -/
theorem check_bcb_boot_persistent_witness :
    (check_bcb env0 bcbBootRecovery).misc.command = (read_bcb_rec bcbBootRecovery).command
    ∧ (check_bcb env0 bcbBootRecovery).oneshot = false
    ∧ (check_bcb env0 bcbBootRecovery).t = RECOVERY := by
  have h := check_bcb_boot_persistent env0 bcbBootRecovery
    ("recovery".toList ++ List.replicate 19 NUL) rfl rfl rfl (by decide)
  exact ⟨h.1, h.2.1, h.2.2 (by decide)⟩

/-- C8 (amended): the one-shot check deletes the persisted variable after
reading it regardless of whether the value was understood; a named target
resolves through the same `name_to_boot_target` table as the BCB check with
unknown names degraded to `NORMAL_BOOT`, except that a resolved `CHARGER`
is degraded to `POWER_OFF` when off-mode charging is disabled. -/
theorem check_loader_entry_one_shot_spec (env : Env) (v : Option (List Char)) :
    (check_loader_entry_one_shot env v).2 = none
    ∧ (v = none → (check_loader_entry_one_shot env v).1 = NORMAL_BOOT)
    ∧ (∀ n, v = some n →
        (check_loader_entry_one_shot env v).1 =
          (if name_to_boot_target n = UNKNOWN_TARGET then NORMAL_BOOT
           else if name_to_boot_target n = CHARGER ∧ ¬ env.offModeCharge then POWER_OFF
           else name_to_boot_target n)) := by
  refine ⟨?_, ?_, ?_⟩
  · cases v <;> rfl
  · intro h; subst h; rfl
  · intro n h; subst h; rfl

/-- Counterexample to C8 as stated: the variable holds the valid target
name `charging`, which resolves to `CHARGER`, yet with off-mode charging
disabled the check returns `POWER_OFF`, not the resolution of the name. -/
theorem check_loader_entry_one_shot_cex :
    name_to_boot_target ("charging".toList) = CHARGER
    ∧ (check_loader_entry_one_shot { env0 with offModeCharge := false }
        (some ("charging".toList))).1 = POWER_OFF
    ∧ POWER_OFF ≠ CHARGER := by
  decide

/-- Witness for C8 (amended) at the `charging` one-shot value. -/
theorem check_loader_entry_one_shot_spec_witness :
    (check_loader_entry_one_shot { env0 with offModeCharge := false }
        (some ("charging".toList))).2 = none
    ∧ (check_loader_entry_one_shot { env0 with offModeCharge := false }
        (some ("charging".toList))).1 = POWER_OFF := by
  have h := check_loader_entry_one_shot_spec { env0 with offModeCharge := false }
    (some ("charging".toList))
  refine ⟨h.1, ?_⟩
  rw [h.2.2 ("charging".toList) rfl]
  decide

/-- C6 (amended): when the elapsed time since the stored reference exceeds
`WATCHDOG_DELAY` and the collaborators succeed, one watchdog pass discards
the accumulated count: the stored counter becomes 0 for a non-watchdog
reset source, and 1 for a watchdog reset source (the stale history is
zeroed before the current reset is counted afresh). -/
theorem check_watchdog_stale_window (env : Env) (wd : WdState)
    (hm : env.crashEventMenu = true) (hg : env.getWdOk = true)
    (ht : env.getTimeOk = true) (hr : env.resetWdOk = true)
    (hs : env.setTimeRefOk = true) (hc : env.setCounterOk = true)
    (hstale : efi_time_to_ctime env.now - efi_time_to_ctime wd.timeRef > WATCHDOG_DELAY) :
    ((check_watchdog env wd).2).counter
      = if env.resetSource = RESET_KERNEL_WATCHDOG
          ∨ env.resetSource = RESET_SECURITY_WATCHDOG then 1 else 0 := by
  by_cases hws : env.resetSource = RESET_KERNEL_WATCHDOG
      ∨ env.resetSource = RESET_SECURITY_WATCHDOG
  · rw [if_pos hws]
    have hcond : ¬ (env.resetSource ≠ RESET_KERNEL_WATCHDOG
        ∧ env.resetSource ≠ RESET_SECURITY_WATCHDOG) := by tauto
    simp [check_watchdog, hm, hg, ht, hr, hs, hc, hcond, WATCHDOG_COUNTER_MAX,
      WATCHDOG_DELAY] at hstale ⊢
    split_ifs <;> simp_all
  · rw [if_neg hws]
    have hcond : env.resetSource ≠ RESET_KERNEL_WATCHDOG
        ∧ env.resetSource ≠ RESET_SECURITY_WATCHDOG := by tauto
    simp only [check_watchdog, hm, hg, ht, hr, hs, hc]
    by_cases h0 : wd.counter = 0 <;> simp [h0, hcond.1, hcond.2]

/-- Counterexample to C6 as stated: a stale window (7200 s elapsed, above
the 600 s delay) with a kernel-watchdog reset source leaves the stored
counter at 1 after the pass, not 0. -/
theorem check_watchdog_stale_cex :
    efi_time_to_ctime (⟨2024, 1, 1, 2, 0, 0⟩ : EfiTime)
        - efi_time_to_ctime (⟨2024, 1, 1, 0, 0, 0⟩ : EfiTime) > WATCHDOG_DELAY
    ∧ ((check_watchdog { env0 with
          crashEventMenu := true
          resetSource := RESET_KERNEL_WATCHDOG
          now := ⟨2024, 1, 1, 2, 0, 0⟩ }
        ⟨2, ⟨2024, 1, 1, 0, 0, 0⟩⟩).2).counter = 1
    ∧ (1 : Nat) ≠ 0 := by
  refine ⟨by decide, ?_, by decide⟩
  decide

/-- Witness for C6 (amended) at a concrete stale watchdog state. -/
theorem check_watchdog_stale_window_witness :
    ((check_watchdog { env0 with
          crashEventMenu := true
          resetSource := RESET_KERNEL_WATCHDOG
          now := ⟨2024, 1, 1, 2, 0, 0⟩ }
        ⟨2, ⟨2024, 1, 1, 0, 0, 0⟩⟩).2).counter = 1 := by
  rw [check_watchdog_stale_window _ _ rfl rfl rfl rfl rfl rfl (by decide)]
  decide

set_option maxHeartbeats 1000000 in
/-- C1: `choose_boot_target` is exactly the fold-until-veto of its nine
checks in the fixed order watchdog, command line, fastboot sentinel, magic
key, battery-inserted, BCB, persisted one-shot variable, low battery,
charge mode.  `chainRun` returns the result of the first check that
returns something other than `NORMAL_BOOT` together with the state mutated
by only the checks evaluated up to that point (later checks are not
evaluated), and `NORMAL_BOOT` when every check defers. -/
theorem choose_boot_target_first_veto (cfg : Config) (env : Env) (st : St) :
    choose_boot_target cfg env st
      = chainRun (decision_checks cfg env) (st, ⟨none, none, true⟩) := by
  simp only [choose_boot_target, decision_checks, chainRun, step_watchdog,
    step_command_line, step_fastboot_sentinel, step_magic_key,
    step_battery_inserted, step_bcb, step_one_shot, step_battery,
    step_charge_mode]
  by_cases h1 : (check_watchdog env st.wd).1 = NORMAL_BOOT
  case neg => simp [h1]
  simp only [h1, ne_eq, not_true_eq_false, if_false, ite_true, ite_false, if_true]
  by_cases h2 : (check_command_line cfg env).1 = NORMAL_BOOT
  case neg => simp [h2]
  simp only [h2, ne_eq, not_true_eq_false, if_false, ite_true, ite_false, if_true]
  by_cases h3 : check_fastboot_sentinel env = NORMAL_BOOT
  case neg => simp [h3]
  simp only [h3, ne_eq, not_true_eq_false, if_false, ite_true, ite_false, if_true]
  by_cases h4 : check_magic_key cfg env = NORMAL_BOOT
  case neg => simp [h4]
  simp only [h4, ne_eq, not_true_eq_false, if_false, ite_true, ite_false, if_true]
  by_cases h5 : check_battery_inserted env = NORMAL_BOOT
  case neg => simp [h5]
  simp only [h5, ne_eq, not_true_eq_false, if_false, ite_true, ite_false, if_true]
  by_cases h6 : (check_bcb env st.misc).t = NORMAL_BOOT
  case neg => simp [h6]
  simp only [h6, ne_eq, not_true_eq_false, if_false, ite_true, ite_false, if_true]
  by_cases h7 : (check_loader_entry_one_shot env st.oneShot).1 = NORMAL_BOOT
  case neg => simp [h7]
  simp only [h7, ne_eq, not_true_eq_false, if_false, ite_true, ite_false, if_true]
  by_cases h8 : check_battery env = NORMAL_BOOT
  case neg => simp [h8]
  simp only [h8, ne_eq, not_true_eq_false, if_false, ite_true, ite_false, if_true]
  by_cases h9 : check_charge_mode env = NORMAL_BOOT <;> simp [h9]
